import Mathlib

/-!
Shallow embedding of `src/bin/main.rs` (hall-effect sensor → WS2812 LED driver)
and proofs about it.

Modelling conventions:
- `u32`/`u16` arithmetic is `Nat` with explicit `% 2 ^ 32` / `% 2 ^ 16` where the
  source can overflow or casts truncate (Rust release-mode wrapping for `*`,
  and `as u16` truncation).
- `esp_hal::gpio::Level` is `Bool` (`High ↦ true`, `Low ↦ false`); a
  `PulseCode` is its four constructor arguments `(level1, length1, level2, length2)`.
- `f32` arithmetic in `voltage_to_color` and the ADC conversion is idealized as
  exact rational (`ℚ`) arithmetic.  At every concrete input evaluated by a
  theorem below, each `f32` operation of the source is exact (all intermediate
  values are representable in `f32`), so the model and the `f32` computation
  agree there.  The Rust saturating float-to-int cast `as u8` is modelled by
  `f32_as_u8`.
-/

set_option autoImplicit false

namespace HallEffect

/-- WS2812 timing constants (in nanoseconds), from the source. -/
def CODE_PERIOD_NS : Nat := 1250

def T0H_NS : Nat := 400

def T0L_NS : Nat := CODE_PERIOD_NS - T0H_NS

def T1H_NS : Nat := 850

def T1L_NS : Nat := CODE_PERIOD_NS - T1H_NS

/-- Buffer size for one RGB LED (24 pulses + 1 delimiter). -/
def BUFFER_SIZE : Nat := 25

/-- `esp_hal::rmt::PulseCode`: two (level, tick-length) phases.  Levels are
`Bool` (`High ↦ true`, `Low ↦ false`); the length fields hold the `u16` values
passed to `PulseCode::new`. -/
structure PulseCode where
  level1 : Bool
  length1 : Nat
  level2 : Bool
  length2 : Nat
deriving DecidableEq, Repr

/-- `smart_leds::RGB8`: three 8-bit channels, constructor order `(r, g, b)`.
Channels are `Nat`; every value the program constructs is `< 256`. -/
structure RGB8 where
  r : Nat
  g : Nat
  b : Nat
deriving DecidableEq, Repr

/-- `fn led_pulses_for_clock(src_clock_mhz: u32) -> (PulseCode, PulseCode)`.
The products are `u32` multiplications (wrapping, hence `% 2 ^ 32`), the
quotients are `u32` division by 1000, and `as u16` truncates (`% 2 ^ 16`).
First component encodes logical 0, second logical 1. -/
def led_pulses_for_clock (src_clock_mhz : Nat) : PulseCode × PulseCode :=
  (PulseCode.mk
      true ((T0H_NS * src_clock_mhz % 2 ^ 32 / 1000) % 2 ^ 16)
      false ((T0L_NS * src_clock_mhz % 2 ^ 32 / 1000) % 2 ^ 16),
   PulseCode.mk
      true ((T1H_NS * src_clock_mhz % 2 ^ 32 / 1000) % 2 ^ 16)
      false ((T1L_NS * src_clock_mhz % 2 ^ 32 / 1000) % 2 ^ 16))

/-- The delimiter written into slot 24:
`PulseCode::new(Level::Low.into(), 0, Level::Low.into(), 0)`. -/
def delimiter : PulseCode := PulseCode.mk false 0 false 0

/-- The body of the inner `for bit in (0..8).rev()` loop of `ws2812_encode`,
given a name so its evaluation can be controlled in proofs.  The loop state
`s` is the pair `(idx, rmt_buffer)`:
`let is_set = (byte & (1 << bit)) != 0;`
`rmt_buffer[idx] = if is_set { pulses.1 } else { pulses.0 };`
`idx += 1;` -/
def encode_bit_step (pulses : PulseCode × PulseCode) (byte : Nat)
    (s : Nat × List PulseCode) (bit : Nat) : Nat × List PulseCode :=
  let is_set : Bool := byte &&& (1 <<< bit) != 0
  (s.1 + 1, s.2.set s.1 (if is_set then pulses.2 else pulses.1))

/-- `fn ws2812_encode(color, pulses, rmt_buffer: &mut [PulseCode; BUFFER_SIZE])`.
The `&mut` buffer is modelled as a `List PulseCode` passed in and returned; the
indexed store `rmt_buffer[idx] = v` is `List.set`.  The loop state is the pair
`(idx, rmt_buffer)`; `for bit in (0..8).rev()` is a fold over
`(List.range 8).reverse = [7, 6, ..., 0]` with body `encode_bit_step`. -/
def ws2812_encode (color : RGB8) (pulses : PulseCode × PulseCode)
    (rmt_buffer : List PulseCode) : List PulseCode :=
  let bytes : List Nat := [color.g, color.r, color.b]
  let st := bytes.foldl
    (fun st byte => (List.range 8).reverse.foldl (encode_bit_step pulses byte) st)
    ((0, rmt_buffer) : Nat × List PulseCode)
  st.2.set 24 delimiter

/-- The body of the inner bit loop of `ws2812_encode`, instrumented to log,
instead of the buffer contents, the value of `idx` at each buffer store. -/
def encode_write_step (s : Nat × List Nat) (_bit : Nat) : Nat × List Nat :=
  (s.1 + 1, s.2 ++ [s.1])

/-- The same loop structure as `ws2812_encode`, logging the buffer-store
indices instead of the stored values (the final `++ [24]` is the fixed
delimiter store into slot 24).  Returns `(idx after the three loops, log)`. -/
def ws2812_encode_writes (color : RGB8) : Nat × List Nat :=
  let bytes : List Nat := [color.g, color.r, color.b]
  let st := bytes.foldl
    (fun st _byte => (List.range 8).reverse.foldl encode_write_step st)
    ((0, []) : Nat × List Nat)
  (st.1, st.2 ++ [24])

/-- Calibration constants (`f32` in the source, exact integers). -/
def MIN_VOLTAGE_MV : ℚ := 500

def MAX_VOLTAGE_MV : ℚ := 2800

/-- Rust saturating cast `f32 as u8` on a finite value, idealized over `ℚ`:
truncate toward zero, clamp into `[0, 255]` (`Nat.floor` already sends
negative rationals to 0). -/
def f32_as_u8 (x : ℚ) : Nat := min 255 ⌊x⌋₊

/-- The interpolation parameter `t` of `voltage_to_color`, exactly the three
source branches. -/
def tOf (voltage_mv : Nat) : ℚ :=
  let v : ℚ := voltage_mv
  if v ≤ MIN_VOLTAGE_MV then 0
  else if MAX_VOLTAGE_MV ≤ v then 1
  else (v - MIN_VOLTAGE_MV) / (MAX_VOLTAGE_MV - MIN_VOLTAGE_MV)

/-- `fn voltage_to_color(voltage_mv: u32) -> RGB8`:
`r = (255.0 * (1.0 - t)) as u8`, `b = (255.0 * t) as u8`, `RGB8::new(r, 0, b)`. -/
def voltage_to_color (voltage_mv : Nat) : RGB8 :=
  let t := tOf voltage_mv
  let r := f32_as_u8 (255 * (1 - t))
  let b := f32_as_u8 (255 * t)
  RGB8.mk r 0 b

/-- The raw-ADC-to-millivolt conversion from the main loop:
`((raw as f32 / 4095.0) * 3300.0) as u32` (saturating cast; the value is
in `[0, 3300]` for raw `≤ 4095`, so no saturation occurs). -/
def raw_to_voltage (raw : Nat) : Nat := ⌊((raw : ℚ) / 4095) * 3300⌋₊

/-- Modelled from the spec (§4.3 step 3, claim C5 wording), for comparison
with the source: the clamp-form interpolation parameter
`t = clamp((voltage_mv - 500) / (2800 - 500), 0.0, 1.0)`. -/
def tClamp (voltage_mv : Nat) : ℚ :=
  max 0 (min 1 (((voltage_mv : ℚ) - MIN_VOLTAGE_MV) / (MAX_VOLTAGE_MV - MIN_VOLTAGE_MV)))

/-- Modelled from the spec (claim C5 wording), for comparison with the source:
the rounded color mapping `red = round(255 * (1 - t))`, `blue = round(255 * t)`,
`green = 0`. -/
def voltage_to_color_round (voltage_mv : Nat) : RGB8 :=
  let t := tClamp voltage_mv
  RGB8.mk (round (255 * (1 - t))).toNat 0 (round (255 * t)).toNat

/-- The pulse stored for one bit of one channel byte: the one-pattern if the
bit is set, else the zero-pattern (the `if is_set`-expression of the source). -/
def bitPulse (pulses : PulseCode × PulseCode) (byte bit : Nat) : PulseCode :=
  if byte &&& (1 <<< bit) != 0 then pulses.2 else pulses.1

/-- The 24 data stores of `ws2812_encode` written out: slot `8*c + (7 - bit)`
of channel `c` (in g, r, b order) receives `bitPulse` of that channel byte. -/
def encodedData (color : RGB8) (pulses : PulseCode × PulseCode)
    (rmt_buffer : List PulseCode) : List PulseCode :=
  rmt_buffer |>.set 0 (bitPulse pulses color.g 7)
    |>.set 1 (bitPulse pulses color.g 6)
    |>.set 2 (bitPulse pulses color.g 5)
    |>.set 3 (bitPulse pulses color.g 4)
    |>.set 4 (bitPulse pulses color.g 3)
    |>.set 5 (bitPulse pulses color.g 2)
    |>.set 6 (bitPulse pulses color.g 1)
    |>.set 7 (bitPulse pulses color.g 0)
    |>.set 8 (bitPulse pulses color.r 7)
    |>.set 9 (bitPulse pulses color.r 6)
    |>.set 10 (bitPulse pulses color.r 5)
    |>.set 11 (bitPulse pulses color.r 4)
    |>.set 12 (bitPulse pulses color.r 3)
    |>.set 13 (bitPulse pulses color.r 2)
    |>.set 14 (bitPulse pulses color.r 1)
    |>.set 15 (bitPulse pulses color.r 0)
    |>.set 16 (bitPulse pulses color.b 7)
    |>.set 17 (bitPulse pulses color.b 6)
    |>.set 18 (bitPulse pulses color.b 5)
    |>.set 19 (bitPulse pulses color.b 4)
    |>.set 20 (bitPulse pulses color.b 3)
    |>.set 21 (bitPulse pulses color.b 2)
    |>.set 22 (bitPulse pulses color.b 1)
    |>.set 23 (bitPulse pulses color.b 0)

theorem range8_rev : (List.range 8).reverse = [7, 6, 5, 4, 3, 2, 1, 0] := by rfl

theorem encode_bit_step_eval (p : PulseCode × PulseCode) (byte idx : Nat)
    (buf : List PulseCode) (bit : Nat) :
    encode_bit_step p byte (idx, buf) bit = (idx + 1, buf.set idx (bitPulse p byte bit)) := rfl

theorem encode_fold_eval (color : RGB8) (p : PulseCode × PulseCode) (buf : List PulseCode) :
    [color.g, color.r, color.b].foldl
      (fun st byte => (List.range 8).reverse.foldl (encode_bit_step p byte) st)
      ((0, buf) : Nat × List PulseCode) = (24, encodedData color p buf) := by
  simp only [range8_rev, List.foldl_cons, List.foldl_nil, encode_bit_step_eval, Nat.reduceAdd,
    encodedData]

theorem encode_unfold (color : RGB8) (p : PulseCode × PulseCode) (buf : List PulseCode) :
    ws2812_encode color p buf =
      ([color.g, color.r, color.b].foldl
        (fun st byte => (List.range 8).reverse.foldl (encode_bit_step p byte) st)
        ((0, buf) : Nat × List PulseCode)).2.set 24 delimiter := rfl

/-- `ws2812_encode` in closed form: the 24 data stores followed by the
delimiter store into slot 24. -/
theorem ws2812_encode_eq (color : RGB8) (p : PulseCode × PulseCode) (buf : List PulseCode) :
    ws2812_encode color p buf = (encodedData color p buf).set 24 delimiter := by
  rw [encode_unfold, encode_fold_eval]

theorem bitPulse_or (p : PulseCode × PulseCode) (byte bit : Nat) :
    bitPulse p byte bit = p.1 ∨ bitPulse p byte bit = p.2 := by
  unfold bitPulse
  split
  · right
    rfl
  · left
    rfl

theorem encode_write_step_eval (idx : Nat) (log : List Nat) (bit : Nat) :
    encode_write_step (idx, log) bit = (idx + 1, log ++ [idx]) := rfl

theorem range25_eq : List.range 25 = [0, 1, 2, 3, 4, 5, 6, 7, 8, 9, 10, 11, 12, 13, 14, 15, 16, 17, 18, 19, 20, 21, 22, 23, 24] := by rfl

/-- The write log of the encode loop in closed form: the data stores hit
slots 0, 1, ..., 23 in order, and the delimiter store hits slot 24. -/
theorem ws2812_encode_writes_eq (color : RGB8) :
    ws2812_encode_writes color = (24, List.range 25) := by
  simp only [ws2812_encode_writes, range8_rev, range25_eq, List.foldl_cons, List.foldl_nil,
    encode_write_step_eval, Nat.reduceAdd, List.nil_append, List.cons_append,
    List.singleton_append]

/-- C9: for every color value, the encode loop increments `idx` exactly 24
times across the three 8-bit channel loops (so `idx = 24` when the fixed
delimiter store runs), and the buffer stores hit exactly the indices
0, 1, ..., 24, each strictly below `BUFFER_SIZE = 25` — every indexing
operation of `ws2812_encode` is in bounds, so the encode cannot panic. -/
theorem ws2812_encode_writes_in_bounds (color : RGB8) :
    (ws2812_encode_writes color).1 = 24 ∧
    (ws2812_encode_writes color).2 = List.range 25 ∧
    ∀ i ∈ (ws2812_encode_writes color).2, i < BUFFER_SIZE := by
  rw [ws2812_encode_writes_eq]
  refine ⟨rfl, rfl, ?_⟩
  intro i hi
  rw [List.mem_range] at hi
  simpa [BUFFER_SIZE] using hi

/-- C1 (amended): for every clock frequency `f` with `0 < f ≤ 77101` (beyond
77101 MHz the computed low-phase tick count of the zero pattern no longer fits
the `u16` length field), the tick sums `S` of the zero pattern and of the one
pattern both satisfy `1250·f − 2000 < 1000·S ≤ 1250·f`: converted back to
nanoseconds, each bit period equals 1250 ns within a truncation error of less
than 2 ticks (the two phases truncate independently, losing less than one
tick each). -/
theorem led_pulses_period_within_two_ticks (f : Nat) (h0 : 0 < f) (h1 : f ≤ 77101) :
    (1000 * ((led_pulses_for_clock f).1.length1 + (led_pulses_for_clock f).1.length2)
        ≤ 1250 * f
      ∧ 1250 * f <
        1000 * ((led_pulses_for_clock f).1.length1 + (led_pulses_for_clock f).1.length2)
          + 2000)
    ∧ (1000 * ((led_pulses_for_clock f).2.length1 + (led_pulses_for_clock f).2.length2)
        ≤ 1250 * f
      ∧ 1250 * f <
        1000 * ((led_pulses_for_clock f).2.length1 + (led_pulses_for_clock f).2.length2)
          + 2000) := by
  simp only [led_pulses_for_clock, T0H_NS, T0L_NS, T1H_NS, T1L_NS, CODE_PERIOD_NS]
  norm_num
  have h400 : 400 * f % 4294967296 = 400 * f := Nat.mod_eq_of_lt (by omega)
  have h850 : 850 * f % 4294967296 = 850 * f := Nat.mod_eq_of_lt (by omega)
  have d400 : 400 * f % 4294967296 / 1000 % 65536 = 400 * f % 4294967296 / 1000 :=
    Nat.mod_eq_of_lt (by omega)
  have d850 : 850 * f % 4294967296 / 1000 % 65536 = 850 * f % 4294967296 / 1000 :=
    Nat.mod_eq_of_lt (by omega)
  rw [d400, d850, h400, h850]
  omega

/-- Witness for the amended C1 at the concrete clock frequency 80 MHz
(the frequency the program actually uses): the zero pattern is (32, 68) ticks
and the one pattern (68, 32) ticks, both summing to 100 ticks = 1250 ns. -/
theorem led_pulses_period_within_two_ticks_witness :
    0 < 80 ∧ 80 ≤ 77101 ∧
    ((1000 * ((led_pulses_for_clock 80).1.length1 + (led_pulses_for_clock 80).1.length2)
        ≤ 1250 * 80
      ∧ 1250 * 80 <
        1000 * ((led_pulses_for_clock 80).1.length1 + (led_pulses_for_clock 80).1.length2)
          + 2000)
    ∧ (1000 * ((led_pulses_for_clock 80).2.length1 + (led_pulses_for_clock 80).2.length2)
        ≤ 1250 * 80
      ∧ 1250 * 80 <
        1000 * ((led_pulses_for_clock 80).2.length1 + (led_pulses_for_clock 80).2.length2)
          + 2000)) :=
  ⟨by decide, by decide, led_pulses_period_within_two_ticks 80 (by decide) (by decide)⟩

/-- C1 counterexample: at clock frequency 7 MHz the zero pattern is (2, 5)
ticks; its sum 7 converts back to `7 * 1000 / 7 = 1000` ns, which misses the
1250 ns bit period by 250 ns, more than one tick (one tick at 7 MHz is
`1000/7 ≈ 142.9` ns, i.e. `250 * 7 = 1750 > 1000`).  The same holds for the
one pattern, whose phases are the zero pattern reversed. -/
theorem led_pulses_period_cex :
    ((led_pulses_for_clock 7).1.length1 + (led_pulses_for_clock 7).1.length2) * 1000 / 7 = 1000
    ∧ ¬ (1250 - ((led_pulses_for_clock 7).1.length1 + (led_pulses_for_clock 7).1.length2)
          * 1000 / 7) * 7 ≤ 1000
    ∧ ¬ (1250 - ((led_pulses_for_clock 7).2.length1 + (led_pulses_for_clock 7).2.length2)
          * 1000 / 7) * 7 ≤ 1000 := by
  decide

theorem bitPulse_some_or (p : PulseCode × PulseCode) (byte bit : Nat) :
    some (bitPulse p byte bit) = some p.1 ∨ some (bitPulse p byte bit) = some p.2 :=
  (bitPulse_or p byte bit).imp (congrArg some) (congrArg some)

/-- C2: for every color and pattern pair, `ws2812_encode` fills all 25 slots of
the 25-slot buffer: the result still has 25 slots, slots 0 through 23 each hold
either the zero pattern `p.1` or the one pattern `p.2`, and slot 24 holds the
delimiter pulse, whose high-phase and low-phase durations are both zero. -/
theorem ws2812_encode_slots (color : RGB8) (p : PulseCode × PulseCode)
    (buf : List PulseCode) (h : buf.length = 25) :
    (ws2812_encode color p buf).length = 25 ∧
    (∀ i, i < 24 → (ws2812_encode color p buf)[i]? = some p.1
        ∨ (ws2812_encode color p buf)[i]? = some p.2) ∧
    (ws2812_encode color p buf)[24]? = some delimiter ∧
    delimiter.length1 = 0 ∧ delimiter.length2 = 0 := by
  rw [ws2812_encode_eq]
  refine ⟨by simp [encodedData, h], ?_, by simp [encodedData, h], rfl, rfl⟩
  intro i hi
  interval_cases i <;> simp [encodedData, h] <;> exact bitPulse_or p _ _

/-- The pulse patterns for the 80 MHz clock the program configures
(zero pattern (32, 68) ticks, one pattern (68, 32) ticks), used by the
concrete theorems below. -/
def pulses80 : PulseCode × PulseCode := led_pulses_for_clock 80

/-- A concrete 25-slot buffer (all slots idle), standing in for the
`[PulseCode::default(); BUFFER_SIZE]` buffer of the main loop. -/
def testBuffer : List PulseCode := List.replicate 25 (PulseCode.mk false 0 false 0)

/-- C3 counterexample: encoding the color with green = 0b10110000 = 176 places
the one pattern in slot 3 as well, because bit 4 of 0b10110000 is set — the
claim, which allows the one pattern only at slots 0 and 2 among slots 0 to 7,
is false (at the 80 MHz patterns the one pattern differs from the zero
pattern, so slot 3 does not hold the zero pattern). -/
theorem ws2812_encode_bit_order_cex :
    (ws2812_encode (RGB8.mk 0 176 0) pulses80 testBuffer)[3]? = some pulses80.2
    ∧ pulses80.2 ≠ pulses80.1 := by
  constructor
  · rw [ws2812_encode_eq]
    simp +decide [encodedData, bitPulse, testBuffer]
  · decide

/-- C3 (amended): encoding the color (green = 0b10110000, red = 0, blue = 0)
places the one pattern at slots 0, 2 and 3 (bits 7, 5 and 4 of the green byte,
which are exactly its set bits) and the zero pattern at the other slots among
0 to 7 (slots 1 and 4 to 7), and the all-zero red and blue bytes produce the
zero pattern in all of slots 8 to 23. -/
theorem ws2812_encode_bit_order (p : PulseCode × PulseCode)
    (buf : List PulseCode) (h : buf.length = 25) :
    (ws2812_encode (RGB8.mk 0 176 0) p buf)[0]? = some p.2 ∧
    (ws2812_encode (RGB8.mk 0 176 0) p buf)[1]? = some p.1 ∧
    (ws2812_encode (RGB8.mk 0 176 0) p buf)[2]? = some p.2 ∧
    (ws2812_encode (RGB8.mk 0 176 0) p buf)[3]? = some p.2 ∧
    (∀ i, 4 ≤ i → i < 8 → (ws2812_encode (RGB8.mk 0 176 0) p buf)[i]? = some p.1) ∧
    (∀ i, 8 ≤ i → i < 24 → (ws2812_encode (RGB8.mk 0 176 0) p buf)[i]? = some p.1) := by
  rw [ws2812_encode_eq]
  refine ⟨by simp +decide [encodedData, bitPulse, h], by simp +decide [encodedData, bitPulse, h],
    by simp +decide [encodedData, bitPulse, h], by simp +decide [encodedData, bitPulse, h], ?_, ?_⟩
  · intro i h1 h2
    interval_cases i <;> simp +decide [encodedData, bitPulse, h]
  · intro i h1 h2
    interval_cases i <;> simp +decide [encodedData, bitPulse, h]

/-- Witness for the amended C3 at the 80 MHz patterns and a concrete buffer. -/
theorem ws2812_encode_bit_order_witness :
    testBuffer.length = 25 ∧
    (ws2812_encode (RGB8.mk 0 176 0) pulses80 testBuffer)[0]? = some pulses80.2 ∧
    (ws2812_encode (RGB8.mk 0 176 0) pulses80 testBuffer)[9]? = some pulses80.1 :=
  ⟨by simp [testBuffer],
   (ws2812_encode_bit_order pulses80 testBuffer (by simp [testBuffer])).1,
   (ws2812_encode_bit_order pulses80 testBuffer (by simp [testBuffer])).2.2.2.2.2 9
     (by norm_num) (by norm_num)⟩

/-- C4: encoding the color (red = 255, green = 0, blue = 0) yields the zero
pattern in slots 0 to 7 (green byte 0), the one pattern in slots 8 to 15
(red byte 255), the zero pattern in slots 16 to 23 (blue byte 0), and the
delimiter in slot 24 — channel bytes go out in green-red-blue order, most
significant bit first. -/
theorem ws2812_encode_gr_order (p : PulseCode × PulseCode)
    (buf : List PulseCode) (h : buf.length = 25) :
    (∀ i, i < 8 → (ws2812_encode (RGB8.mk 255 0 0) p buf)[i]? = some p.1) ∧
    (∀ i, 8 ≤ i → i < 16 → (ws2812_encode (RGB8.mk 255 0 0) p buf)[i]? = some p.2) ∧
    (∀ i, 16 ≤ i → i < 24 → (ws2812_encode (RGB8.mk 255 0 0) p buf)[i]? = some p.1) ∧
    (ws2812_encode (RGB8.mk 255 0 0) p buf)[24]? = some delimiter := by
  rw [ws2812_encode_eq]
  refine ⟨?_, ?_, ?_, by simp [encodedData, h]⟩
  · intro i h2
    interval_cases i <;> simp +decide [encodedData, bitPulse, h]
  · intro i h1 h2
    interval_cases i <;> simp +decide [encodedData, bitPulse, h]
  · intro i h1 h2
    interval_cases i <;> simp +decide [encodedData, bitPulse, h]

/-- Witness for C4 at the 80 MHz patterns and a concrete buffer. -/
theorem ws2812_encode_gr_order_witness :
    testBuffer.length = 25 ∧
    (ws2812_encode (RGB8.mk 255 0 0) pulses80 testBuffer)[0]? = some pulses80.1 ∧
    (ws2812_encode (RGB8.mk 255 0 0) pulses80 testBuffer)[8]? = some pulses80.2 ∧
    (ws2812_encode (RGB8.mk 255 0 0) pulses80 testBuffer)[16]? = some pulses80.1 ∧
    (ws2812_encode (RGB8.mk 255 0 0) pulses80 testBuffer)[24]? = some delimiter :=
  ⟨by simp [testBuffer],
   (ws2812_encode_gr_order pulses80 testBuffer (by simp [testBuffer])).1 0 (by norm_num),
   (ws2812_encode_gr_order pulses80 testBuffer (by simp [testBuffer])).2.1 8
     (by norm_num) (by norm_num),
   (ws2812_encode_gr_order pulses80 testBuffer (by simp [testBuffer])).2.2.1 16
     (by norm_num) (by norm_num),
   (ws2812_encode_gr_order pulses80 testBuffer (by simp [testBuffer])).2.2.2⟩

/-- Witness for C2 at a concrete color, the 80 MHz patterns and a concrete
buffer. -/
theorem ws2812_encode_slots_witness :
    testBuffer.length = 25 ∧
    ((ws2812_encode (RGB8.mk 10 20 30) pulses80 testBuffer)[5]? = some pulses80.1
      ∨ (ws2812_encode (RGB8.mk 10 20 30) pulses80 testBuffer)[5]? = some pulses80.2) ∧
    (ws2812_encode (RGB8.mk 10 20 30) pulses80 testBuffer)[24]? = some delimiter ∧
    delimiter.length1 = 0 ∧ delimiter.length2 = 0 :=
  ⟨by simp [testBuffer],
   (ws2812_encode_slots (RGB8.mk 10 20 30) pulses80 testBuffer (by simp [testBuffer])).2.1 5
     (by norm_num),
   (ws2812_encode_slots (RGB8.mk 10 20 30) pulses80 testBuffer (by simp [testBuffer])).2.2.1,
   (ws2812_encode_slots (RGB8.mk 10 20 30) pulses80 testBuffer (by simp [testBuffer])).2.2.2.1,
   (ws2812_encode_slots (RGB8.mk 10 20 30) pulses80 testBuffer (by simp [testBuffer])).2.2.2.2⟩

theorem tOf_eq_tClamp (v : Nat) : tOf v = tClamp v := by
  have h2300 : (0 : ℚ) < MAX_VOLTAGE_MV - MIN_VOLTAGE_MV := by
    norm_num [MIN_VOLTAGE_MV, MAX_VOLTAGE_MV]
  simp only [tOf, tClamp]
  split
  · rename_i hle
    have hq : ((v : ℚ) - MIN_VOLTAGE_MV) / (MAX_VOLTAGE_MV - MIN_VOLTAGE_MV) ≤ 0 := by
      apply div_nonpos_of_nonpos_of_nonneg
      · linarith
      · linarith
    rw [inf_eq_right.mpr (hq.trans (by norm_num)), sup_eq_left.mpr hq]
  · rename_i hgt
    push_neg at hgt
    split
    · rename_i hge
      have hq : (1 : ℚ) ≤ ((v : ℚ) - MIN_VOLTAGE_MV) / (MAX_VOLTAGE_MV - MIN_VOLTAGE_MV) := by
        rw [le_div_iff₀ h2300]
        linarith
      rw [inf_eq_left.mpr hq, sup_eq_right.mpr (by norm_num : (0 : ℚ) ≤ 1)]
    · rename_i hlt
      push_neg at hlt
      have h0 : 0 ≤ ((v : ℚ) - MIN_VOLTAGE_MV) / (MAX_VOLTAGE_MV - MIN_VOLTAGE_MV) :=
        div_nonneg (by linarith) h2300.le
      have h1 : ((v : ℚ) - MIN_VOLTAGE_MV) / (MAX_VOLTAGE_MV - MIN_VOLTAGE_MV) ≤ 1 := by
        rw [div_le_one h2300]
        linarith
      rw [inf_eq_right.mpr h1, sup_eq_right.mpr h0]

theorem tClamp_mono {v1 v2 : Nat} (h : v1 ≤ v2) : tClamp v1 ≤ tClamp v2 := by
  unfold tClamp
  have hc : (v1 : ℚ) ≤ (v2 : ℚ) := by exact_mod_cast h
  have h2300 : (0 : ℚ) < MAX_VOLTAGE_MV - MIN_VOLTAGE_MV := by
    norm_num [MIN_VOLTAGE_MV, MAX_VOLTAGE_MV]
  gcongr

/-- `voltage_to_color` with the interpolation parameter in the clamp form the
spec uses. -/
theorem voltage_to_color_eq (v : Nat) :
    voltage_to_color v =
      RGB8.mk (f32_as_u8 (255 * (1 - tClamp v))) 0 (f32_as_u8 (255 * tClamp v)) := by
  simp only [voltage_to_color, tOf_eq_tClamp]

theorem vtc_mono (v1 v2 : Nat) (h : v1 ≤ v2) :
    (voltage_to_color v2).r ≤ (voltage_to_color v1).r ∧
    (voltage_to_color v1).b ≤ (voltage_to_color v2).b := by
  rw [voltage_to_color_eq, voltage_to_color_eq]
  have ht := tClamp_mono h
  simp only [f32_as_u8]
  constructor
  · exact min_le_min (le_refl _) (Nat.floor_le_floor (by linarith))
  · exact min_le_min (le_refl _) (Nat.floor_le_floor (by linarith))

theorem vtc_low {v : Nat} (hv : v ≤ 500) : voltage_to_color v = RGB8.mk 255 0 0 := by
  have ht : tOf v = 0 := by
    simp only [tOf, MIN_VOLTAGE_MV]
    rw [if_pos (by exact_mod_cast hv)]
  simp only [voltage_to_color, ht, f32_as_u8]
  norm_num

theorem vtc_high {v : Nat} (hv : 2800 ≤ v) : voltage_to_color v = RGB8.mk 0 0 255 := by
  have ht : tOf v = 1 := by
    simp only [tOf, MIN_VOLTAGE_MV, MAX_VOLTAGE_MV]
    have hwc : (2800 : ℚ) ≤ (v : ℚ) := by exact_mod_cast hv
    rw [if_neg (not_le.mpr (by linarith)), if_pos hwc]
  simp only [voltage_to_color, ht, f32_as_u8]
  norm_num

theorem vtc_1650 : voltage_to_color 1650 = RGB8.mk 127 0 127 := by
  have ht : tOf 1650 = 1 / 2 := by
    simp only [tOf, MIN_VOLTAGE_MV, MAX_VOLTAGE_MV]
    rw [if_neg (by norm_num), if_neg (by norm_num)]
    norm_num
  have f1 : ⌊(255 : ℚ) * (1 - 1 / 2)⌋₊ = 127 := by
    rw [show (255 : ℚ) * (1 - 1 / 2) = 255 / 2 by norm_num, Nat.floor_eq_iff (by norm_num)]
    norm_num
  have f2 : ⌊(255 : ℚ) * (1 / 2)⌋₊ = 127 := by
    rw [show (255 : ℚ) * (1 / 2) = 255 / 2 by norm_num, Nat.floor_eq_iff (by norm_num)]
    norm_num
  simp only [voltage_to_color, ht, f32_as_u8, f1, f2]
  norm_num

theorem vtcr_1650 : voltage_to_color_round 1650 = RGB8.mk 128 0 128 := by
  have htc : tClamp 1650 = 1 / 2 := by
    rw [← tOf_eq_tClamp]
    simp only [tOf, MIN_VOLTAGE_MV, MAX_VOLTAGE_MV]
    rw [if_neg (by norm_num), if_neg (by norm_num)]
    norm_num
  have r1 : round ((255 : ℚ) * (1 - 1 / 2)) = 128 := by norm_num [round_eq]
  have r2 : round ((255 : ℚ) * (1 / 2)) = 128 := by norm_num [round_eq]
  simp only [voltage_to_color_round, htc, r1, r2]
  decide

/-- C5 counterexample: the source truncates the two channel values, it does
not round them.  At the midpoint voltage 1650 mV the interpolation parameter
is exactly 1/2 (every `f32` operation is exact there), so the source computes
`(255 * 0.5) as u8 = 127` for both channels, giving (127, 0, 127), while the
claimed rounded mapping gives `round(127.5) = 128`, i.e. (128, 0, 128); in
particular the red channels disagree, and neither result matches the claimed
approximate (128, 0, 127). -/
theorem voltage_to_color_round_cex :
    voltage_to_color 1650 = RGB8.mk 127 0 127 ∧
    voltage_to_color_round 1650 = RGB8.mk 128 0 128 ∧
    (voltage_to_color 1650).r ≠ (voltage_to_color_round 1650).r := by
  refine ⟨vtc_1650, vtcr_1650, ?_⟩
  rw [vtc_1650, vtcr_1650]
  decide

/-- C5 (amended): the mapping computes the red channel as
`trunc(255 * (1 - t))` and the blue channel as `trunc(255 * t)` — the Rust
`as u8` cast truncates toward zero, it does not round — with green always 0,
where `t` is the clamped interpolation parameter; in particular the midpoint
voltage 1650 mV maps to exactly (127, 0, 127). -/
theorem voltage_to_color_truncates :
    (∀ v : Nat, voltage_to_color v =
        RGB8.mk (f32_as_u8 (255 * (1 - tClamp v))) 0 (f32_as_u8 (255 * tClamp v))) ∧
    voltage_to_color 1650 = RGB8.mk 127 0 127 :=
  ⟨voltage_to_color_eq, vtc_1650⟩

/-- C6: every voltage at most 500 mV maps to pure red (255, 0, 0) and every
voltage at least 2800 mV maps to pure blue (0, 0, 255). -/
theorem voltage_to_color_boundary (v w : Nat) (hv : v ≤ 500) (hw : 2800 ≤ w) :
    voltage_to_color v = RGB8.mk 255 0 0 ∧ voltage_to_color w = RGB8.mk 0 0 255 :=
  ⟨vtc_low hv, vtc_high hw⟩

/-- Witness for C6 at 0 mV and 3300 mV. -/
theorem voltage_to_color_boundary_witness :
    (0 : Nat) ≤ 500 ∧ (2800 : Nat) ≤ 3300 ∧
    (voltage_to_color 0 = RGB8.mk 255 0 0 ∧ voltage_to_color 3300 = RGB8.mk 0 0 255) :=
  ⟨by norm_num, by norm_num, voltage_to_color_boundary 0 3300 (by norm_num) (by norm_num)⟩

/-- C7: on the calibrated range 500 mV to 2800 mV the mapping is monotone:
for voltages `v1 < v2` in that range, the red channel does not increase and
the blue channel does not decrease. -/
theorem voltage_to_color_monotone_calibrated (v1 v2 : Nat)
    (_h1 : 500 ≤ v1) (h2 : v1 < v2) (_h3 : v2 ≤ 2800) :
    (voltage_to_color v2).r ≤ (voltage_to_color v1).r ∧
    (voltage_to_color v1).b ≤ (voltage_to_color v2).b :=
  vtc_mono v1 v2 h2.le

/-- Witness for C7 at 1000 mV and 2000 mV. -/
theorem voltage_to_color_monotone_calibrated_witness :
    (500 : Nat) ≤ 1000 ∧ (1000 : Nat) < 2000 ∧ (2000 : Nat) ≤ 2800 ∧
    ((voltage_to_color 2000).r ≤ (voltage_to_color 1000).r ∧
      (voltage_to_color 1000).b ≤ (voltage_to_color 2000).b) :=
  ⟨by norm_num, by norm_num, by norm_num,
   voltage_to_color_monotone_calibrated 1000 2000 (by norm_num) (by norm_num) (by norm_num)⟩

/-- C10: the mapping is monotone over the whole unsigned voltage domain, not
only the calibrated range, because the interpolation parameter is clamped to
the interval from 0 to 1: for all `v1 < v2` the red channel does not increase
and the blue channel does not decrease. -/
theorem voltage_to_color_monotone_global (v1 v2 : Nat) (h : v1 < v2) :
    (voltage_to_color v2).r ≤ (voltage_to_color v1).r ∧
    (voltage_to_color v1).b ≤ (voltage_to_color v2).b :=
  vtc_mono v1 v2 h.le

/-- Witness for C10 at 100 mV and 3000 mV, both outside the calibrated
range. -/
theorem voltage_to_color_monotone_global_witness :
    (100 : Nat) < 3000 ∧
    ((voltage_to_color 3000).r ≤ (voltage_to_color 100).r ∧
      (voltage_to_color 100).b ≤ (voltage_to_color 3000).b) :=
  ⟨by norm_num, voltage_to_color_monotone_global 100 3000 (by norm_num)⟩

/-- C8: a raw ADC reading of 0 converts to 0 mV and maps to (255, 0, 0); a
raw reading of 4095 converts to exactly 3300 mV, whose interpolation
parameter clamps to 1, mapping to (0, 0, 255).  (At both raw readings every
`f32` operation of the source conversion is exact.) -/
theorem adc_scenario :
    raw_to_voltage 0 = 0 ∧ voltage_to_color (raw_to_voltage 0) = RGB8.mk 255 0 0 ∧
    raw_to_voltage 4095 = 3300 ∧ tOf (raw_to_voltage 4095) = 1 ∧
    voltage_to_color (raw_to_voltage 4095) = RGB8.mk 0 0 255 := by
  have h0 : raw_to_voltage 0 = 0 := by
    simp only [raw_to_voltage]
    norm_num
  have h1 : raw_to_voltage 4095 = 3300 := by
    simp only [raw_to_voltage]
    rw [show ((4095 : Nat) : ℚ) / 4095 * 3300 = 3300 by norm_num]
    simp
  refine ⟨h0, ?_, h1, ?_, ?_⟩
  · rw [h0]
    exact vtc_low (by norm_num)
  · rw [h1]
    simp only [tOf, MIN_VOLTAGE_MV, MAX_VOLTAGE_MV]
    rw [if_neg (by norm_num), if_pos (by norm_num)]
  · rw [h1]
    exact vtc_high (by norm_num)

end HallEffect
